import Mathlib

/-!
Verification of the terraform backend resolver (`client/backend.go`).

The Go source resolves a named backend configuration block into a validated
terraform state document.  We embed the data model and the three entry points
(`parseAndValidate`, `NewS3TerraformBackend`, `NewLocalTerraformBackend`,
`NewBackend`) shallowly: network and filesystem interactions are supplied by
explicit environment records, and every externally visible action is recorded
in an effect trace.
-/

set_option autoImplicit false

namespace TfClient

/-- A JSON value, the shape `encoding/json` decodes a byte stream into. -/
inductive Json where
  | null
  | bool (b : Bool)
  | num (n : Int)
  | str (s : String)
  | arr (xs : List Json)
  | obj (fields : List (String × Json))

/-- Go `encoding/json` object field lookup: with duplicate keys the later
value overwrites the earlier one, so we fold left keeping the last match. -/
def lookupField (fields : List (String × Json)) (key : String) : Option Json :=
  fields.foldl (fun acc p => if p.1 = key then some p.2 else acc) none

/-- Modelled from the spec: the single supported state version constant
(`StateVersion`, declared outside this file in the repository; terraform
state format version 4). -/
def StateVersion : Int := 4

/-- Modelled from the spec: the versioned state document (`State` inside
`TerraformData`, declared outside this file): an integer `version` field and
an otherwise opaque payload, which we keep as the raw JSON value. -/
structure State where
  Version : Int
  raw : Json

/-- Modelled from the spec: `TerraformData` wraps the decoded state. -/
structure TerraformData where
  State : State

/-- The distinct failure modes of the resolver, one constructor per distinct
error construction site in the source. -/
inductive TfError where
  /-- `"cannot parse s3 backend config"` / `"cannot parse local backend config"` -/
  | configDecode (kind : String)
  /-- `"invalid tf state file"` -/
  | stateFormat
  /-- `"unsupported state version %d"` -/
  | stateVersion (v : Int)
  /-- `"failed to read tfstate from %s"` -/
  | resourceUnavailable (path : String)
  /-- error from `s3manager.GetBucketRegion`, returned verbatim -/
  | regionLookupErr (msg : String)
  /-- error from `session.NewSessionWithOptions`, returned verbatim -/
  | sessionErr (msg : String)
  /-- error from `arn.Parse`, returned verbatim -/
  | arnParseErr
  /-- error from `svc.GetObject`, returned verbatim -/
  | getObjectErr (msg : String)
  /-- `"unsupported backend"` -/
  | unsupportedBackend
deriving DecidableEq

/-- Result of a Go function returning `(*T, error)`, plus the possibility of
a runtime panic (an unchecked type assertion). -/
inductive Outcome (α : Type) where
  | panics
  | err (e : TfError)
  | ok (v : α)

/--
Go `json.NewDecoder(reader).Decode(&s.State)`, decoding one JSON value into
the state struct.  Input `none` stands for a byte stream that is not valid
JSON (including an empty stream).  Decoding `null` into a value is a no-op
(the value keeps its zero state), both for the whole struct and for an
individual field, so a `null` `version` also leaves the integer field at
zero; decoding an object reads the `version` key into the integer field if
present (zero otherwise) and fails on a non-numeric, non-null value there;
any other JSON shape cannot decode into a struct.
-/
def decodeStateJson : Json → Option State
  | Json.null => some ⟨0, Json.null⟩
  | Json.obj fields =>
    match lookupField fields "version" with
    | none => some ⟨0, Json.obj fields⟩
    | some Json.null => some ⟨0, Json.obj fields⟩
    | some (Json.num n) => some ⟨n, Json.obj fields⟩
    | some _ => none
  | _ => none

/-- `parseAndValidate` (backend.go:60-69): decode the stream into the state
struct, report `"invalid tf state file"` on decode failure, then gate on the
supported state version. -/
def parseAndValidate (stream : Option Json) : Except TfError TerraformData :=
  match stream with
  | none => Except.error TfError.stateFormat
  | some j =>
    match decodeStateJson j with
    | none => Except.error TfError.stateFormat
    | some st =>
      if st.Version ≠ StateVersion then Except.error (TfError.stateVersion st.Version)
      else Except.ok ⟨st⟩

/-- `cqproto.ConfigFormat` is an external integer-valued enum; only its
comparison with `ConfigHCL` matters to this code. -/
def ConfigFormat : Type := Nat

instance : DecidableEq ConfigFormat := fun a b => Nat.decEq a b

/-- `cqproto.ConfigHCL` -/
def ConfigHCL : ConfigFormat := (0 : Nat)

/-- `cqproto.ConfigYAML` -/
def ConfigYAML : ConfigFormat := (1 : Nat)

/-- A value carried in an HCL body attribute: the decoders only distinguish
strings from everything else. -/
inductive HclVal where
  | vstr (s : String)
  | vother
deriving DecidableEq

/-- An `hcl.Body` as far as `gohcl.DecodeBody` into a flat attribute struct
is concerned: a set of named attributes. -/
def HclBody : Type := List (String × HclVal)

/-- The `interface{}`-typed `ConfigAttrsHCL` field: it either actually holds
an `hcl.Body`, or holds some other value (including `nil`), on which the
type assertion `config.ConfigAttrsHCL.(hcl.Body)` panics. -/
inductive HclPayload where
  | body (b : HclBody)
  | notBody

/-- A value in the `map[string]interface{}` YAML payload: after the generic
re-serialization, the struct decoders only distinguish strings (scalars that
decode into a string field) from everything else. -/
inductive YamlVal where
  | ystr (s : String)
  | yother
deriving DecidableEq

/-- `ConfigAttrsYAML map[string]interface{}` (Go map keys are unique). -/
def YamlMap : Type := List (String × YamlVal)

/-- `BackendConfigBlock` (backend.go:33-40). -/
structure BackendConfigBlock where
  BackendName : String
  BackendType : String
  ConfigAttrsHCL : HclPayload
  ConfigAttrsYAML : YamlMap
  format : ConfigFormat

/-- `BackendType` constant `LOCAL = "local"`. -/
def LOCAL : String := "local"

/-- `BackendType` constant `S3 = "s3"`. -/
def S3 : String := "s3"

/-- `TerraformBackend` (backend.go:42-46). -/
structure TerraformBackend where
  BackendType : String
  BackendName : String
  Data : TerraformData

/-- `LocalBackendConfig` (backend.go:48-50). -/
structure LocalBackendConfig where
  Path : String
deriving DecidableEq

/-- `S3BackendConfig` (backend.go:52-57). -/
structure S3BackendConfig where
  Bucket : String
  Key : String
  Region : String
  RoleArn : String
deriving DecidableEq

/-- First-match lookup in an HCL attribute set (HCL bodies cannot repeat an
attribute name, so first match is exact). -/
def hlookup (b : HclBody) (key : String) : Option HclVal :=
  match b with
  | [] => none
  | p :: rest => if p.1 = key then some p.2 else hlookup rest key

/-- Lookup in the YAML attribute map (Go map keys are unique). -/
def ylookup (m : YamlMap) (key : String) : Option YamlVal :=
  match m with
  | [] => none
  | p :: rest => if p.1 = key then some p.2 else ylookup rest key

/-- `gohcl.DecodeBody` rejects attributes not declared in the target struct
("Unsupported argument"); this checks the body against an allowed key set. -/
def hclKeysAllowed (b : HclBody) (allowed : List String) : Bool :=
  b.all fun p => allowed.contains p.1

/-- `gohcl.DecodeBody` into `S3BackendConfig`: `bucket`, `key`, `region` are
required string attributes, `role_arn` is optional (`hcl:"role_arn,optional"`),
and any other attribute is a diagnostic. -/
def decodeS3HCL (b : HclBody) : Option S3BackendConfig :=
  if hclKeysAllowed b ["bucket", "key", "region", "role_arn"] then
    match hlookup b "bucket", hlookup b "key", hlookup b "region" with
    | some (HclVal.vstr bu), some (HclVal.vstr k), some (HclVal.vstr r) =>
      match hlookup b "role_arn" with
      | none => some ⟨bu, k, r, ""⟩
      | some (HclVal.vstr ra) => some ⟨bu, k, r, ra⟩
      | some HclVal.vother => none
    | _, _, _ => none
  else none

/-- `gohcl.DecodeBody` into `LocalBackendConfig`: `path` is a required string
attribute and any other attribute is a diagnostic. -/
def decodeLocalHCL (b : HclBody) : Option LocalBackendConfig :=
  if hclKeysAllowed b ["path"] then
    match hlookup b "path" with
    | some (HclVal.vstr p) => some ⟨p⟩
    | _ => none
  else none

/-- `yaml.Unmarshal` of one field into a string target: a missing key leaves
the zero value `""`, a string scalar decodes, and any other value is a type
error for the whole unmarshal. -/
def yamlStrField (m : YamlMap) (key : String) : Option String :=
  match ylookup m key with
  | none => some ""
  | some (YamlVal.ystr s) => some s
  | some YamlVal.yother => none

/-- `yaml.Unmarshal` into `S3BackendConfig` (tags `bucket`, `key`, `region`,
`role_arn`); unknown keys are ignored. -/
def yamlUnmarshalS3 (m : YamlMap) : Option S3BackendConfig := do
  let bu ← yamlStrField m "bucket"
  let k ← yamlStrField m "key"
  let r ← yamlStrField m "region"
  let ra ← yamlStrField m "role_arn"
  pure ⟨bu, k, r, ra⟩

/-- `yaml.Unmarshal` into `LocalBackendConfig` (tag `path`). -/
def yamlUnmarshalLocal (m : YamlMap) : Option LocalBackendConfig := do
  let p ← yamlStrField m "path"
  pure ⟨p⟩

/-- `yaml.Marshal` of an `S3BackendConfig`: every field serializes as a
string scalar under its tag, except that `role_arn,omitempty` is dropped
when empty. -/
def yamlMarshalS3 (c : S3BackendConfig) : YamlMap :=
  [("bucket", YamlVal.ystr c.Bucket), ("key", YamlVal.ystr c.Key),
   ("region", YamlVal.ystr c.Region)] ++
  (if c.RoleArn = "" then [] else [("role_arn", YamlVal.ystr c.RoleArn)])

/-- An `arn.ARN` as produced by `arn.Parse`. -/
structure Arn where
  Partition : List Char
  Service : List Char
  Region : List Char
  AccountID : List Char
  Resource : List Char
deriving DecidableEq

/-- `strings.SplitN(s, ":", n)` without the limit: full split on colons. -/
def splitOnColon : List Char → List (List Char)
  | [] => [[]]
  | c :: rest =>
    if c = ':' then [] :: splitOnColon rest
    else
      match splitOnColon rest with
      | [] => [[c]]
      | s :: ss => (c :: s) :: ss

/-- Re-join pieces with colons (the tail of `SplitN(s, ":", 6)` keeps its
inner colons, which full splitting then re-joining recovers). -/
def joinColon : List (List Char) → List Char
  | [] => []
  | [s] => s
  | s :: rest => s ++ ':' :: joinColon rest

/-- `arn.Parse`: the string must start with `"arn:"` and split on `":"` into
at least six sections (`SplitN(s, ":", 6)` must yield exactly six); sections
1-4 become partition/service/region/account and the rest is the resource. -/
def parseArn (s : String) : Option Arn :=
  match splitOnColon s.data with
  | p0 :: p1 :: p2 :: p3 :: p4 :: p5 :: rest =>
    if p0 = ("arn".data) then some ⟨p1, p2, p3, p4, joinColon (p5 :: rest)⟩
    else none
  | _ => none

/-- Credentials used for the object fetch: the ambient session credentials,
or `stscreds` temporary credentials for an assumed role. -/
inductive Creds where
  | ambient
  | assumed (a : Arn)
deriving DecidableEq

/-- Externally visible side effects of one resolve, in order. -/
inductive Effect where
  | regionLookup (bucket fallback : String)
  | getObject (bucket key region : String) (creds : Creds)
  | fileOpen (path : String)

/-- `"us-east-1"`, the fixed fallback region passed to `GetBucketRegion`. -/
def fallbackRegion : String := "us-east-1"

/-- The AWS side of the world, supplied to the s3 strategy: whether the bare
`session.NewSession()` inside `session.Must` fails (which panics), the
outcome of `s3manager.GetBucketRegion`, the outcome of
`session.NewSessionWithOptions`, and the outcome of `svc.GetObject`
(its body modelled as parsed JSON, `none` for a non-JSON body). -/
structure S3Env where
  newSessionFails : Bool
  bucketRegion : String → String → Except String String
  sessionWithOptionsErr : Option String
  getObject : String → String → String → Creds → Except String (Option Json)

/-- The filesystem, supplied to the local strategy: `os.Open` either fails
(`none`) or yields the file's content as a JSON stream. -/
structure FsEnv where
  openFile : String → Option (Option Json)

/-- The config-decoding switch of `NewS3TerraformBackend` (backend.go:74-85):
on `ConfigHCL` the `interface{}` payload is type-asserted to `hcl.Body`
(panicking if it is not one) and decoded; on any other format the YAML map
is generically re-serialized and re-parsed. -/
def decodeS3Config (config : BackendConfigBlock) : Outcome S3BackendConfig :=
  if config.format = ConfigHCL then
    match config.ConfigAttrsHCL with
    | HclPayload.notBody => Outcome.panics
    | HclPayload.body body =>
      match decodeS3HCL body with
      | none => Outcome.err (TfError.configDecode "s3")
      | some b => Outcome.ok b
  else
    match yamlUnmarshalS3 config.ConfigAttrsYAML with
    | none => Outcome.err (TfError.configDecode "s3")
    | some b => Outcome.ok b

/-- The config-decoding switch of `NewLocalTerraformBackend`
(backend.go:147-158), same shape as `decodeS3Config`. -/
def decodeLocalConfig (config : BackendConfigBlock) : Outcome LocalBackendConfig :=
  if config.format = ConfigHCL then
    match config.ConfigAttrsHCL with
    | HclPayload.notBody => Outcome.panics
    | HclPayload.body body =>
      match decodeLocalHCL body with
      | none => Outcome.err (TfError.configDecode "local")
      | some b => Outcome.ok b
  else
    match yamlUnmarshalLocal config.ConfigAttrsYAML with
    | none => Outcome.err (TfError.configDecode "local")
    | some b => Outcome.ok b

/-- backend.go:87-98: when the decoded region is empty, look the bucket's
region up once via `GetBucketRegion` with `"us-east-1"` as the lookup's own
region context (`session.Must(session.NewSession())` panics first if the
ambient session cannot be built); a lookup failure is returned as-is. -/
def regionStep (env : S3Env) (b : S3BackendConfig) : Outcome String × List Effect :=
  if b.Region = "" then
    if env.newSessionFails then (Outcome.panics, [])
    else
      match env.bucketRegion b.Bucket fallbackRegion with
      | Except.error e =>
        (Outcome.err (TfError.regionLookupErr e), [Effect.regionLookup b.Bucket fallbackRegion])
      | Except.ok r =>
        (Outcome.ok r, [Effect.regionLookup b.Bucket fallbackRegion])
  else (Outcome.ok b.Region, [])

/-- backend.go:111-120: with a non-empty `RoleArn`, parse it (returning the
parse error as-is when malformed) and override the fetch credentials with
`stscreds` role credentials; otherwise keep the ambient credentials. -/
def credsStep (b : S3BackendConfig) : Except TfError Creds :=
  if b.RoleArn = "" then Except.ok Creds.ambient
  else
    match parseArn b.RoleArn with
    | none => Except.error TfError.arnParseErr
    | some a => Except.ok (Creds.assumed a)

/-- backend.go:111-141 after the session is built: resolve credentials,
fetch `bucket`+`key` with them, and parse-and-validate the body; every
error is returned as-is, and the fetch effect is recorded whenever
`GetObject` is reached (whatever its outcome). -/
def s3Fetch (env : S3Env) (name : String) (b : S3BackendConfig) (region : String) :
    Outcome TerraformBackend × List Effect :=
  match credsStep b with
  | Except.error e => (Outcome.err e, [])
  | Except.ok creds =>
    match env.getObject b.Bucket b.Key region creds with
    | Except.error e =>
      (Outcome.err (TfError.getObjectErr e),
       [Effect.getObject b.Bucket b.Key region creds])
    | Except.ok body =>
      match parseAndValidate body with
      | Except.error e =>
        (Outcome.err e, [Effect.getObject b.Bucket b.Key region creds])
      | Except.ok data =>
        (Outcome.ok ⟨S3, name, data⟩, [Effect.getObject b.Bucket b.Key region creds])

/-- backend.go:87-141: region resolution, then
`session.NewSessionWithOptions` for the resolved region, then the fetch;
the region-lookup trace precedes the fetch trace. -/
def s3AfterDecode (env : S3Env) (name : String) (b : S3BackendConfig) :
    Outcome TerraformBackend × List Effect :=
  match regionStep env b with
  | (Outcome.panics, t) => (Outcome.panics, t)
  | (Outcome.err e, t) => (Outcome.err e, t)
  | (Outcome.ok region, t) =>
    match env.sessionWithOptionsErr with
    | some e => (Outcome.err (TfError.sessionErr e), t)
    | none =>
      let r := s3Fetch env name b region
      (r.1, t ++ r.2)

/-- `NewS3TerraformBackend` (backend.go:71-142): decode the config, then
resolve region and credentials, fetch the object, and parse-and-validate
its body into the returned backend. -/
def NewS3TerraformBackend (env : S3Env) (config : BackendConfigBlock) :
    Outcome TerraformBackend × List Effect :=
  match decodeS3Config config with
  | Outcome.panics => (Outcome.panics, [])
  | Outcome.err e => (Outcome.err e, [])
  | Outcome.ok b => s3AfterDecode env config.BackendName b

/-- `NewLocalTerraformBackend` (backend.go:144-176): decode the config, open
the file at the configured path (reporting
`"failed to read tfstate from %s"` on failure), and parse-and-validate its
content into the returned backend. -/
def NewLocalTerraformBackend (env : FsEnv) (config : BackendConfigBlock) :
    Outcome TerraformBackend × List Effect :=
  match decodeLocalConfig config with
  | Outcome.panics => (Outcome.panics, [])
  | Outcome.err e => (Outcome.err e, [])
  | Outcome.ok b =>
    match env.openFile b.Path with
    | none => (Outcome.err (TfError.resourceUnavailable b.Path), [Effect.fileOpen b.Path])
    | some content =>
      match parseAndValidate content with
      | Except.error e => (Outcome.err e, [Effect.fileOpen b.Path])
      | Except.ok data =>
        (Outcome.ok ⟨LOCAL, config.BackendName, data⟩, [Effect.fileOpen b.Path])

/-- The whole world a resolve may touch. -/
structure Env where
  s3 : S3Env
  fs : FsEnv

/-- `NewBackend` (backend.go:179-196): dispatch on the backend-type tag;
anything other than `"local"` and `"s3"` fails with
`"unsupported backend"`. -/
def NewBackend (env : Env) (cfg : BackendConfigBlock) :
    Outcome TerraformBackend × List Effect :=
  if cfg.BackendType = "local" then NewLocalTerraformBackend env.fs cfg
  else if cfg.BackendType = "s3" then NewS3TerraformBackend env.s3 cfg
  else (Outcome.err TfError.unsupportedBackend, [])

/-- Number of region-discovery lookups in a trace. -/
def countRegionLookups (t : List Effect) : Nat :=
  match t with
  | [] => 0
  | Effect.regionLookup _ _ :: rest => 1 + countRegionLookups rest
  | _ :: rest => countRegionLookups rest

/-- Number of object fetches in a trace. -/
def countGetObjects (t : List Effect) : Nat :=
  match t with
  | [] => 0
  | Effect.getObject _ _ _ _ :: rest => 1 + countGetObjects rest
  | _ :: rest => countGetObjects rest

/-! ## Shared concrete inputs for witnesses and counterexamples -/

/-- A minimal state document at the supported version. -/
def stubJson : Json := Json.obj [("version", Json.num 4)]

/-- A benign AWS world: sessions build, the bucket is found in eu-west-1,
and the fetched object holds `stubJson`. -/
def stubS3Env : S3Env :=
  { newSessionFails := false
    bucketRegion := fun _ _ => Except.ok "eu-west-1"
    sessionWithOptionsErr := none
    getObject := fun _ _ _ _ => Except.ok (some stubJson) }

/-- A filesystem on which every path opens and holds `stubJson`. -/
def stubFsEnv : FsEnv := { openFile := fun _ => some (some stubJson) }

/-- A filesystem on which no path can be opened. -/
def failFsEnv : FsEnv := { openFile := fun _ => none }

/-- A benign full world. -/
def stubEnv : Env := ⟨stubS3Env, stubFsEnv⟩

/-- A YAML-format s3 config block whose payload has a `key` but no
`bucket`. -/
def cfgYamlNoBucket : BackendConfigBlock :=
  { BackendName := "n", BackendType := "s3", ConfigAttrsHCL := HclPayload.notBody,
    ConfigAttrsYAML := [("key", YamlVal.ystr "k")], format := ConfigYAML }

/-- A YAML-format s3 config block with bucket and key but no region. -/
def cfgYamlBK : BackendConfigBlock :=
  { BackendName := "n", BackendType := "s3", ConfigAttrsHCL := HclPayload.notBody,
    ConfigAttrsYAML := [("bucket", YamlVal.ystr "B"), ("key", YamlVal.ystr "K")],
    format := ConfigYAML }

/-- A YAML-format s3 config block with an explicit region and a malformed
role ARN. -/
def cfgYamlRoleBad : BackendConfigBlock :=
  { BackendName := "n", BackendType := "s3", ConfigAttrsHCL := HclPayload.notBody,
    ConfigAttrsYAML := [("bucket", YamlVal.ystr "B"), ("key", YamlVal.ystr "K"),
      ("region", YamlVal.ystr "R"), ("role_arn", YamlVal.ystr "nope")],
    format := ConfigYAML }

/-- A YAML-format s3 config block with an explicit region and a well-formed
role ARN. -/
def cfgYamlRoleOk : BackendConfigBlock :=
  { BackendName := "n", BackendType := "s3", ConfigAttrsHCL := HclPayload.notBody,
    ConfigAttrsYAML := [("bucket", YamlVal.ystr "B"), ("key", YamlVal.ystr "K"),
      ("region", YamlVal.ystr "R"),
      ("role_arn", YamlVal.ystr "arn:aws:iam::123:role/foo")],
    format := ConfigYAML }

/-- A YAML-format local config block naming path `p`. -/
def cfgYamlLocal : BackendConfigBlock :=
  { BackendName := "n", BackendType := "local", ConfigAttrsHCL := HclPayload.notBody,
    ConfigAttrsYAML := [("path", YamlVal.ystr "p")], format := ConfigYAML }

/-! ## Claims -/

/-- C2 counterexample: the empty JSON object is valid JSON and is an object
with no numeric `version` field, yet `parseAndValidate` fails with the
version error `"unsupported state version 0"`, not the `StateFormatError`
message `"invalid tf state file"` the claim requires. -/
theorem C2_counterexample :
    parseAndValidate (some (Json.obj [])) = Except.error (TfError.stateVersion 0) ∧
    TfError.stateVersion 0 ≠ TfError.stateFormat :=
  ⟨rfl, by decide⟩

/-- C2 amended: a non-JSON stream, or valid JSON that is neither an object
nor `null`, or an object whose `version` field holds a non-numeric,
non-null value, fails with the `StateFormatError` message
`"invalid tf state file"`; but an object with no `version` field, an object
whose `version` is JSON `null`, and a bare `null` all decode with version
`0` (Go zero-value / null-no-op behaviour) and fail the version gate with
`"unsupported state version 0"` instead. -/
theorem C2_amended_thm :
    parseAndValidate none = Except.error TfError.stateFormat ∧
    (∀ b, parseAndValidate (some (Json.bool b)) = Except.error TfError.stateFormat) ∧
    (∀ n, parseAndValidate (some (Json.num n)) = Except.error TfError.stateFormat) ∧
    (∀ s, parseAndValidate (some (Json.str s)) = Except.error TfError.stateFormat) ∧
    (∀ xs, parseAndValidate (some (Json.arr xs)) = Except.error TfError.stateFormat) ∧
    (∀ fields v, lookupField fields "version" = some v →
      (∀ n, v ≠ Json.num n) → v ≠ Json.null →
      parseAndValidate (some (Json.obj fields)) = Except.error TfError.stateFormat) ∧
    (∀ fields, lookupField fields "version" = none →
      parseAndValidate (some (Json.obj fields)) = Except.error (TfError.stateVersion 0)) ∧
    (∀ fields, lookupField fields "version" = some Json.null →
      parseAndValidate (some (Json.obj fields)) = Except.error (TfError.stateVersion 0)) ∧
    parseAndValidate (some Json.null) = Except.error (TfError.stateVersion 0) := by
  refine ⟨rfl, fun b => rfl, fun n => rfl, fun s => rfl, fun xs => rfl, ?_, ?_, ?_, rfl⟩
  · intro fields v h hnum hnull
    have hd : decodeStateJson (Json.obj fields) = none := by
      cases v with
      | null => exact absurd rfl hnull
      | num n => exact absurd rfl (hnum n)
      | bool b => simp only [decodeStateJson, h]
      | str s => simp only [decodeStateJson, h]
      | arr xs => simp only [decodeStateJson, h]
      | obj f2 => simp only [decodeStateJson, h]
    simp only [parseAndValidate, hd]
  · intro fields h
    simp only [parseAndValidate, decodeStateJson, h]
    rfl
  · intro fields h
    simp only [parseAndValidate, decodeStateJson, h]
    rfl

/-- C2 amended witness: concrete instances of the three quantified parts —
a boolean `version` is a format error, while a missing and a `null`
`version` both hit the version gate at 0. -/
theorem C2_amended_witness :
    parseAndValidate (some (Json.obj [("version", Json.bool true)])) =
      Except.error TfError.stateFormat ∧
    parseAndValidate (some (Json.obj [("serial", Json.num 1)])) =
      Except.error (TfError.stateVersion 0) ∧
    parseAndValidate (some (Json.obj [("version", Json.null)])) =
      Except.error (TfError.stateVersion 0) :=
  ⟨C2_amended_thm.2.2.2.2.2.1 [("version", Json.bool true)] (Json.bool true) rfl
      (fun _ h => Json.noConfusion h) (fun h => Json.noConfusion h),
   C2_amended_thm.2.2.2.2.2.2.1 [("serial", Json.num 1)] rfl,
   C2_amended_thm.2.2.2.2.2.2.2.1 [("version", Json.null)] rfl⟩

/-- C3: a decoded document whose `version` differs from `StateVersion`
fails with the version error carrying the actual version found, and any
document `parseAndValidate` returns has `version = StateVersion`. -/
theorem C3_version_gate :
    (∀ j st, decodeStateJson j = some st → st.Version ≠ StateVersion →
      parseAndValidate (some j) = Except.error (TfError.stateVersion st.Version)) ∧
    (∀ s d, parseAndValidate s = Except.ok d → d.State.Version = StateVersion) := by
  constructor
  · intro j st h hne
    simp only [parseAndValidate, h]
    rw [if_pos hne]
  · intro s d h
    unfold parseAndValidate at h
    split at h
    · cases h
    · split at h
      · cases h
      · split at h
        · cases h
        · cases h
          simp_all

/-- C3 witness: version 7 is rejected with `"unsupported state version 7"`,
and a returned document evaluates to version `StateVersion`. -/
theorem C3_witness :
    parseAndValidate (some (Json.obj [("version", Json.num 7)])) =
      Except.error (TfError.stateVersion 7) ∧
    (⟨⟨4, stubJson⟩⟩ : TerraformData).State.Version = StateVersion :=
  ⟨C3_version_gate.1 (Json.obj [("version", Json.num 7)])
      ⟨7, Json.obj [("version", Json.num 7)]⟩ rfl (by decide),
   C3_version_gate.2 (some stubJson) ⟨⟨4, stubJson⟩⟩ rfl⟩

/-- C4: on any backend-type tag other than `"local"` and `"s3"`, `NewBackend`
fails with `"unsupported backend"` with an empty effect trace, for every
world and every config payload — no decoding, no network, no filesystem. -/
theorem C4_unsupported_kind (env : Env) (cfg : BackendConfigBlock)
    (h1 : cfg.BackendType ≠ "local") (h2 : cfg.BackendType ≠ "s3") :
    NewBackend env cfg = (Outcome.err TfError.unsupportedBackend, []) := by
  simp only [NewBackend, if_neg h1, if_neg h2]

/-- C4 witness: the tag `"unsupported-kind"` at a concrete config block. -/
theorem C4_witness :
    NewBackend stubEnv
      { BackendName := "n", BackendType := "unsupported-kind",
        ConfigAttrsHCL := HclPayload.notBody, ConfigAttrsYAML := [],
        format := ConfigYAML } =
      (Outcome.err TfError.unsupportedBackend, []) :=
  C4_unsupported_kind stubEnv _ (by decide) (by decide)

/-- Helper: an HCL body with no `bucket` attribute cannot decode into
`S3BackendConfig` (the attribute is required). -/
lemma decodeS3HCL_noBucket (body : HclBody) (h : hlookup body "bucket" = none) :
    decodeS3HCL body = none := by
  unfold decodeS3HCL
  split
  · rw [h]
  · rfl

/-- Helper: an HCL body with no `path` attribute cannot decode into
`LocalBackendConfig` (the attribute is required). -/
lemma decodeLocalHCL_noPath (body : HclBody) (h : hlookup body "path" = none) :
    decodeLocalHCL body = none := by
  unfold decodeLocalHCL
  split
  · rw [h]
  · rfl

/-- Helper: a successful YAML unmarshal into `S3BackendConfig` reads every
field through `yamlStrField`. -/
lemma yamlUnmarshalS3_fields (m : YamlMap) (b : S3BackendConfig)
    (h : yamlUnmarshalS3 m = some b) :
    yamlStrField m "bucket" = some b.Bucket ∧ yamlStrField m "key" = some b.Key ∧
    yamlStrField m "region" = some b.Region ∧
    yamlStrField m "role_arn" = some b.RoleArn := by
  unfold yamlUnmarshalS3 at h
  rcases hbu : yamlStrField m "bucket" with _ | bu <;> rw [hbu] at h
  · simp at h
  rcases hk : yamlStrField m "key" with _ | k <;> rw [hk] at h
  · simp at h
  rcases hr : yamlStrField m "region" with _ | r <;> rw [hr] at h
  · simp at h
  rcases hra : yamlStrField m "role_arn" with _ | ra <;> rw [hra] at h
  · simp at h
  simp only [Option.bind_eq_bind, Option.some_bind, Option.pure_def, Option.some.injEq] at h
  subst h
  exact ⟨rfl, rfl, rfl, rfl⟩

/-- Helper: a successful YAML unmarshal into `LocalBackendConfig` reads the
path through `yamlStrField`. -/
lemma yamlUnmarshalLocal_fields (m : YamlMap) (b : LocalBackendConfig)
    (h : yamlUnmarshalLocal m = some b) : yamlStrField m "path" = some b.Path := by
  unfold yamlUnmarshalLocal at h
  rcases hp : yamlStrField m "path" with _ | p <;> rw [hp] at h
  · simp at h
  simp only [Option.bind_eq_bind, Option.some_bind, Option.pure_def, Option.some.injEq] at h
  subst h
  exact rfl

/-- C1 counterexample: a FormatB (YAML) s3 payload with no `bucket` does not
fail with the config-decode error at all — it resolves successfully, after a
region lookup and an object fetch on the network, with the empty string as
bucket. -/
theorem C1_counterexample :
    NewS3TerraformBackend stubS3Env cfgYamlNoBucket =
      (Outcome.ok ⟨S3, "n", ⟨⟨4, stubJson⟩⟩⟩,
       [Effect.regionLookup "" fallbackRegion,
        Effect.getObject "" "k" "eu-west-1" Creds.ambient]) ∧
    countRegionLookups [Effect.regionLookup "" fallbackRegion,
        Effect.getObject "" "k" "eu-west-1" Creds.ambient] ≠ 0 :=
  ⟨rfl, by decide⟩

/-- C1 amended: under FormatA (HCL), a payload missing a required field
(`bucket` for s3, `path` for local) fails with the config-decode error for
its backend kind with an empty effect trace — no network or filesystem
access; under FormatB (YAML) a missing field is not an error: the field
decodes as the empty string and resolution proceeds. -/
theorem C1_amended_thm :
    (∀ (env : S3Env) (cfg : BackendConfigBlock) (body : HclBody),
      cfg.format = ConfigHCL → cfg.ConfigAttrsHCL = HclPayload.body body →
      hlookup body "bucket" = none →
      NewS3TerraformBackend env cfg = (Outcome.err (TfError.configDecode "s3"), [])) ∧
    (∀ (env : FsEnv) (cfg : BackendConfigBlock) (body : HclBody),
      cfg.format = ConfigHCL → cfg.ConfigAttrsHCL = HclPayload.body body →
      hlookup body "path" = none →
      NewLocalTerraformBackend env cfg = (Outcome.err (TfError.configDecode "local"), [])) ∧
    (∀ m b, ylookup m "bucket" = none → yamlUnmarshalS3 m = some b → b.Bucket = "") ∧
    (∀ m b, ylookup m "path" = none → yamlUnmarshalLocal m = some b → b.Path = "") := by
  refine ⟨?_, ?_, ?_, ?_⟩
  · intro env cfg body hf hb hbucket
    have hd : decodeS3HCL body = none := decodeS3HCL_noBucket body hbucket
    have hc : decodeS3Config cfg = Outcome.err (TfError.configDecode "s3") := by
      simp [decodeS3Config, hf, hb, hd]
    simp [NewS3TerraformBackend, hc]
  · intro env cfg body hf hb hpath
    have hd : decodeLocalHCL body = none := decodeLocalHCL_noPath body hpath
    have hc : decodeLocalConfig cfg = Outcome.err (TfError.configDecode "local") := by
      simp [decodeLocalConfig, hf, hb, hd]
    simp [NewLocalTerraformBackend, hc]
  · intro m b hmiss hun
    have h := (yamlUnmarshalS3_fields m b hun).1
    rw [yamlStrField, hmiss] at h
    exact (Option.some.injEq _ _ ▸ h).symm
  · intro m b hmiss hun
    have h := yamlUnmarshalLocal_fields m b hun
    rw [yamlStrField, hmiss] at h
    exact (Option.some.injEq _ _ ▸ h).symm

/-- C1 amended witness: concrete HCL bodies missing the required field for
both kinds, and concrete YAML maps missing it that decode to the empty
string. -/
theorem C1_amended_witness :
    NewS3TerraformBackend stubS3Env
      { BackendName := "n", BackendType := "s3",
        ConfigAttrsHCL := HclPayload.body [("key", HclVal.vstr "k")],
        ConfigAttrsYAML := [], format := ConfigHCL } =
      (Outcome.err (TfError.configDecode "s3"), []) ∧
    NewLocalTerraformBackend stubFsEnv
      { BackendName := "n", BackendType := "local",
        ConfigAttrsHCL := HclPayload.body [], ConfigAttrsYAML := [],
        format := ConfigHCL } =
      (Outcome.err (TfError.configDecode "local"), []) ∧
    S3BackendConfig.Bucket ⟨"", "k", "", ""⟩ = "" :=
  ⟨C1_amended_thm.1 stubS3Env _ [("key", HclVal.vstr "k")] rfl rfl rfl,
   C1_amended_thm.2.1 stubFsEnv _ [] rfl rfl rfl,
   C1_amended_thm.2.2.1 [("key", YamlVal.ystr "k")] ⟨"", "k", "", ""⟩ rfl rfl⟩

/-- C9: with the FormatA (HCL) tag but a payload that is not an `hcl.Body`,
both strategies panic on the unchecked type assertion with no effects
performed; and the HCL error branch is reached only when the payload is a
genuine HCL body whose decode fails. -/
theorem C9_hcl_assertion :
    (∀ (es : S3Env) (ef : FsEnv) (cfg : BackendConfigBlock),
      cfg.format = ConfigHCL → cfg.ConfigAttrsHCL = HclPayload.notBody →
      NewS3TerraformBackend es cfg = (Outcome.panics, []) ∧
      NewLocalTerraformBackend ef cfg = (Outcome.panics, [])) ∧
    (∀ cfg e, cfg.format = ConfigHCL → decodeS3Config cfg = Outcome.err e →
      ∃ body, cfg.ConfigAttrsHCL = HclPayload.body body ∧ decodeS3HCL body = none ∧
        e = TfError.configDecode "s3") ∧
    (∀ cfg e, cfg.format = ConfigHCL → decodeLocalConfig cfg = Outcome.err e →
      ∃ body, cfg.ConfigAttrsHCL = HclPayload.body body ∧ decodeLocalHCL body = none ∧
        e = TfError.configDecode "local") := by
  refine ⟨?_, ?_, ?_⟩
  · intro es ef cfg hf hb
    have hs : decodeS3Config cfg = Outcome.panics := by simp [decodeS3Config, hf, hb]
    have hl : decodeLocalConfig cfg = Outcome.panics := by simp [decodeLocalConfig, hf, hb]
    exact ⟨by simp [NewS3TerraformBackend, hs], by simp [NewLocalTerraformBackend, hl]⟩
  · intro cfg e hf hd
    unfold decodeS3Config at hd
    rw [if_pos hf] at hd
    split at hd
    · cases hd
    · rename_i body heq
      split at hd
      · rename_i hdec
        cases hd
        exact ⟨body, heq, hdec, rfl⟩
      · cases hd
  · intro cfg e hf hd
    unfold decodeLocalConfig at hd
    rw [if_pos hf] at hd
    split at hd
    · cases hd
    · rename_i body heq
      split at hd
      · rename_i hdec
        cases hd
        exact ⟨body, heq, hdec, rfl⟩
      · cases hd

/-- C9 witness: a concrete non-body payload under the HCL tag panics in
both strategies, and a concrete failing genuine body reaches the error
branch. -/
theorem C9_witness :
    NewS3TerraformBackend stubS3Env
      { BackendName := "n", BackendType := "s3", ConfigAttrsHCL := HclPayload.notBody,
        ConfigAttrsYAML := [], format := ConfigHCL } =
      (Outcome.panics, []) ∧
    NewLocalTerraformBackend stubFsEnv
      { BackendName := "n", BackendType := "local", ConfigAttrsHCL := HclPayload.notBody,
        ConfigAttrsYAML := [], format := ConfigHCL } =
      (Outcome.panics, []) :=
  ⟨(C9_hcl_assertion.1 stubS3Env stubFsEnv
      { BackendName := "n", BackendType := "s3", ConfigAttrsHCL := HclPayload.notBody,
        ConfigAttrsYAML := [], format := ConfigHCL } rfl rfl).1,
   (C9_hcl_assertion.1 stubS3Env stubFsEnv
      { BackendName := "n", BackendType := "local", ConfigAttrsHCL := HclPayload.notBody,
        ConfigAttrsYAML := [], format := ConfigHCL } rfl rfl).2⟩

/-- C10: any format tag other than the HCL constant — in particular any
unrecognized value, not only the YAML constant — takes the FormatB (YAML)
decode path: the resolve ignores the HCL payload entirely and behaves
exactly as with the YAML tag. -/
theorem C10_default_yaml (es : S3Env) (ef : FsEnv) (n t : String)
    (h h2 : HclPayload) (y : YamlMap) (f : ConfigFormat) (hf : f ≠ ConfigHCL) :
    NewS3TerraformBackend es ⟨n, t, h, y, f⟩ =
      NewS3TerraformBackend es ⟨n, t, h2, y, ConfigYAML⟩ ∧
    NewLocalTerraformBackend ef ⟨n, t, h, y, f⟩ =
      NewLocalTerraformBackend ef ⟨n, t, h2, y, ConfigYAML⟩ := by
  have hy : (ConfigYAML : ConfigFormat) ≠ ConfigHCL := by decide
  have hs : decodeS3Config ⟨n, t, h, y, f⟩ = decodeS3Config ⟨n, t, h2, y, ConfigYAML⟩ := by
    simp only [decodeS3Config, if_neg hf, if_neg hy]
  have hl : decodeLocalConfig ⟨n, t, h, y, f⟩ =
      decodeLocalConfig ⟨n, t, h2, y, ConfigYAML⟩ := by
    simp only [decodeLocalConfig, if_neg hf, if_neg hy]
  constructor
  · unfold NewS3TerraformBackend
    rw [hs]
  · unfold NewLocalTerraformBackend
    rw [hl]

/-- A YAML payload carrying attributes for both backend kinds, used to
exercise the default decode path. -/
def ymapBoth : YamlMap :=
  [("bucket", YamlVal.ystr "B"), ("key", YamlVal.ystr "K"), ("path", YamlVal.ystr "p")]

/-- C10 witness: the unrecognized format value `7` behaves as YAML on a
concrete block, for both strategies. -/
theorem C10_witness :
    NewS3TerraformBackend stubS3Env ⟨"n", "s3", HclPayload.notBody, ymapBoth, (7 : Nat)⟩ =
      NewS3TerraformBackend stubS3Env
        ⟨"n", "s3", HclPayload.body [], ymapBoth, ConfigYAML⟩ ∧
    NewLocalTerraformBackend stubFsEnv
        ⟨"n", "s3", HclPayload.notBody, ymapBoth, (7 : Nat)⟩ =
      NewLocalTerraformBackend stubFsEnv
        ⟨"n", "s3", HclPayload.body [], ymapBoth, ConfigYAML⟩ :=
  C10_default_yaml stubS3Env stubFsEnv "n" "s3" HclPayload.notBody
    (HclPayload.body []) ymapBoth (7 : Nat) (by decide)

/-- C8: marshalling an `S3BackendConfig` through the YAML path and
unmarshalling it back restores bucket, key, region and role ARN exactly
(the `omitempty` role ARN round-trips through the zero value). -/
theorem C8_roundtrip (c : S3BackendConfig) :
    yamlUnmarshalS3 (yamlMarshalS3 c) = some c := by
  obtain ⟨bu, k, r, ra⟩ := c
  by_cases hra : ra = ""
  · subst hra; rfl
  · simp only [yamlMarshalS3, if_neg hra]
    rfl

/-- Helper: with an empty configured region and a working ambient session,
the region step emits exactly the one lookup effect, whatever the lookup
returns. -/
lemma regionStep_trace_lookup (env : S3Env) (b : S3BackendConfig)
    (hr : b.Region = "") (hn : env.newSessionFails = false) :
    (regionStep env b).2 = [Effect.regionLookup b.Bucket fallbackRegion] := by
  unfold regionStep
  rw [if_pos hr, hn]
  simp only [Bool.false_eq_true, if_false]
  split <;> rfl

/-- Helper: a failing lookup with an empty configured region is fatal,
surfacing the lookup error after the one lookup effect. -/
lemma regionStep_err (env : S3Env) (b : S3BackendConfig) (e : String)
    (hr : b.Region = "") (hn : env.newSessionFails = false)
    (hb : env.bucketRegion b.Bucket fallbackRegion = Except.error e) :
    regionStep env b =
      (Outcome.err (TfError.regionLookupErr e),
       [Effect.regionLookup b.Bucket fallbackRegion]) := by
  unfold regionStep
  rw [if_pos hr, hn, hb]
  simp

/-- Helper: a non-empty configured region short-circuits the region step
with no effects. -/
lemma regionStep_nonempty (env : S3Env) (b : S3BackendConfig) (hr : b.Region ≠ "") :
    regionStep env b = (Outcome.ok b.Region, []) := by
  unfold regionStep
  rw [if_neg hr]

/-- Helper: the region step never fetches an object. -/
lemma countGetObjects_regionStep (env : S3Env) (b : S3BackendConfig) :
    countGetObjects (regionStep env b).2 = 0 := by
  unfold regionStep
  split
  · split
    · rfl
    · split <;> rfl
  · rfl

/-- Helper: the fetch stage never performs a region lookup. -/
lemma countRegionLookups_s3Fetch (env : S3Env) (name : String) (b : S3BackendConfig)
    (region : String) : countRegionLookups (s3Fetch env name b region).2 = 0 := by
  unfold s3Fetch
  split
  · rfl
  · split
    · rfl
    · split <;> rfl

/-- Helper: once credentials resolve, the fetch stage records exactly one
object fetch carrying those credentials, whatever its outcome. -/
lemma s3Fetch_trace (env : S3Env) (name : String) (b : S3BackendConfig)
    (region : String) (creds : Creds) (h : credsStep b = Except.ok creds) :
    (s3Fetch env name b region).2 = [Effect.getObject b.Bucket b.Key region creds] := by
  unfold s3Fetch
  simp only [h]
  split
  · rfl
  · split <;> rfl

/-- Helper: the full post-decode trace is the region-step trace followed by
a lookup-free remainder. -/
lemma s3AfterDecode_trace (env : S3Env) (name : String) (b : S3BackendConfig) :
    ∃ rest, (s3AfterDecode env name b).2 = (regionStep env b).2 ++ rest ∧
      countRegionLookups rest = 0 := by
  unfold s3AfterDecode
  rcases hr : regionStep env b with ⟨o, t⟩
  cases o with
  | panics => exact ⟨[], by simp [hr], rfl⟩
  | err e => exact ⟨[], by simp [hr], rfl⟩
  | ok region =>
    cases hs : env.sessionWithOptionsErr with
    | some e => exact ⟨[], by simp [hr, hs], rfl⟩
    | none =>
      exact ⟨(s3Fetch env name b region).2, by simp [hr, hs],
        countRegionLookups_s3Fetch env name b region⟩

/-- Helper: `countRegionLookups` distributes over append. -/
lemma countRegionLookups_append (s t : List Effect) :
    countRegionLookups (s ++ t) = countRegionLookups s + countRegionLookups t := by
  induction s with
  | nil => simp [countRegionLookups]
  | cons e rest ih => cases e <;> simp [countRegionLookups, ih, Nat.add_assoc]

/-- C5: on a successfully decoded s3 config with a working ambient session,
an empty `region` triggers exactly one bucket-region lookup, as the first
effect (so before the fetch) and with `"us-east-1"` as the lookup's own
region context, with a lookup failure fatal; a non-empty `region` triggers
no lookup at all. -/
theorem C5_region_discovery (env : S3Env) (cfg : BackendConfigBlock)
    (b : S3BackendConfig) (hdec : decodeS3Config cfg = Outcome.ok b)
    (hns : env.newSessionFails = false) :
    (b.Region = "" →
      ((NewS3TerraformBackend env cfg).2.head? =
          some (Effect.regionLookup b.Bucket fallbackRegion) ∧
        countRegionLookups (NewS3TerraformBackend env cfg).2 = 1) ∧
      (∀ e, env.bucketRegion b.Bucket fallbackRegion = Except.error e →
        NewS3TerraformBackend env cfg =
          (Outcome.err (TfError.regionLookupErr e),
           [Effect.regionLookup b.Bucket fallbackRegion]))) ∧
    (b.Region ≠ "" → countRegionLookups (NewS3TerraformBackend env cfg).2 = 0) := by
  have hTr : (NewS3TerraformBackend env cfg).2 = (s3AfterDecode env cfg.BackendName b).2 := by
    simp only [NewS3TerraformBackend, hdec]
  obtain ⟨rest, hre, hrc⟩ := s3AfterDecode_trace env cfg.BackendName b
  constructor
  · intro hr
    have h2 : (regionStep env b).2 = [Effect.regionLookup b.Bucket fallbackRegion] :=
      regionStep_trace_lookup env b hr hns
    refine ⟨⟨?_, ?_⟩, ?_⟩
    · rw [hTr, hre, h2]
      rfl
    · rw [hTr, hre, countRegionLookups_append, h2, hrc]
      rfl
    · intro e he
      have hregion := regionStep_err env b e hr hns he
      simp only [NewS3TerraformBackend, hdec, s3AfterDecode, hregion]
  · intro hr
    have h2 := regionStep_nonempty env b hr
    rw [hTr, hre, h2]
    simpa using hrc

/-- C5 witness: a bucket-and-key-only config against the benign world does
exactly one leading lookup. -/
theorem C5_witness :
    (NewS3TerraformBackend stubS3Env cfgYamlBK).2.head? =
      some (Effect.regionLookup "B" fallbackRegion) ∧
    countRegionLookups (NewS3TerraformBackend stubS3Env cfgYamlBK).2 = 1 :=
  ((C5_region_discovery stubS3Env cfgYamlBK ⟨"B", "K", "", ""⟩ rfl rfl).1 rfl).1

/-- C6: on a successfully decoded s3 config that reaches the credential
step (region resolved, session built) with a non-empty `roleArn`: a
malformed ARN fails with the ARN parse error before any fetch effect, and a
well-formed ARN makes the one fetch effect carry the assumed-role
credentials instead of the ambient ones. -/
theorem C6_role_arn (env : S3Env) (cfg : BackendConfigBlock) (b : S3BackendConfig)
    (region : String) (tr : List Effect)
    (hdec : decodeS3Config cfg = Outcome.ok b)
    (hreg : regionStep env b = (Outcome.ok region, tr))
    (hsess : env.sessionWithOptionsErr = none) (hra : b.RoleArn ≠ "") :
    (parseArn b.RoleArn = none →
      NewS3TerraformBackend env cfg = (Outcome.err TfError.arnParseErr, tr) ∧
      countGetObjects tr = 0) ∧
    (∀ a, parseArn b.RoleArn = some a →
      (NewS3TerraformBackend env cfg).2 =
        tr ++ [Effect.getObject b.Bucket b.Key region (Creds.assumed a)]) := by
  have htr0 : countGetObjects tr = 0 := by
    have := countGetObjects_regionStep env b
    rw [hreg] at this
    exact this
  constructor
  · intro hpa
    have hcs : credsStep b = Except.error TfError.arnParseErr := by
      unfold credsStep
      rw [if_neg hra, hpa]
    have hfetch : s3Fetch env cfg.BackendName b region = (Outcome.err TfError.arnParseErr, []) := by
      unfold s3Fetch
      rw [hcs]
    refine ⟨?_, htr0⟩
    simp [NewS3TerraformBackend, hdec, s3AfterDecode, hreg, hsess, hfetch]
  · intro a hpa
    have hcs : credsStep b = Except.ok (Creds.assumed a) := by
      unfold credsStep
      rw [if_neg hra, hpa]
    have hfetch := s3Fetch_trace env cfg.BackendName b region (Creds.assumed a) hcs
    simp only [NewS3TerraformBackend, hdec, s3AfterDecode, hreg, hsess]
    simpa using hfetch

/-- C6 witness: the malformed ARN `"nope"` fails with the parse error and no
fetch, and the well-formed ARN `"arn:aws:iam::123:role/foo"` puts the
assumed-role credentials on the fetch effect. -/
theorem C6_witness :
    (NewS3TerraformBackend stubS3Env cfgYamlRoleBad =
      (Outcome.err TfError.arnParseErr, []) ∧ countGetObjects [] = 0) ∧
    (NewS3TerraformBackend stubS3Env cfgYamlRoleOk).2 =
      [] ++ [Effect.getObject "B" "K" "R"
        (Creds.assumed ⟨"aws".data, "iam".data, "".data, "123".data, "role/foo".data⟩)] :=
  ⟨(C6_role_arn stubS3Env cfgYamlRoleBad ⟨"B", "K", "R", "nope"⟩ "R" [] rfl rfl rfl
      (by decide)).1 (by decide),
   (C6_role_arn stubS3Env cfgYamlRoleOk ⟨"B", "K", "R", "arn:aws:iam::123:role/foo"⟩ "R" []
      rfl rfl rfl (by decide)).2
    ⟨"aws".data, "iam".data, "".data, "123".data, "role/foo".data⟩ (by decide)⟩

/-- C7: on a successfully decoded local config, a path that cannot be opened
fails with `"failed to read tfstate from <path>"` after the one open
attempt, and a path holding a stream that parses and validates returns the
Local backend with the name echoed from the config block and the validated
document. -/
theorem C7_local_resolve (env : FsEnv) (cfg : BackendConfigBlock)
    (b : LocalBackendConfig) (hdec : decodeLocalConfig cfg = Outcome.ok b) :
    (env.openFile b.Path = none →
      NewLocalTerraformBackend env cfg =
        (Outcome.err (TfError.resourceUnavailable b.Path), [Effect.fileOpen b.Path])) ∧
    (∀ content data, env.openFile b.Path = some content →
      parseAndValidate content = Except.ok data →
      NewLocalTerraformBackend env cfg =
        (Outcome.ok ⟨LOCAL, cfg.BackendName, data⟩, [Effect.fileOpen b.Path])) := by
  constructor
  · intro h
    simp [NewLocalTerraformBackend, hdec, h]
  · intro content data h hp
    simp [NewLocalTerraformBackend, hdec, h, hp]

/-- C7 witness: path `p` unopenable fails naming `p`; path `p` holding a
version-4 document resolves to the Local backend named `n`. -/
theorem C7_witness :
    NewLocalTerraformBackend failFsEnv cfgYamlLocal =
      (Outcome.err (TfError.resourceUnavailable "p"), [Effect.fileOpen "p"]) ∧
    NewLocalTerraformBackend stubFsEnv cfgYamlLocal =
      (Outcome.ok ⟨LOCAL, "n", ⟨⟨4, stubJson⟩⟩⟩, [Effect.fileOpen "p"]) :=
  ⟨(C7_local_resolve failFsEnv cfgYamlLocal ⟨"p"⟩ rfl).1 rfl,
   (C7_local_resolve stubFsEnv cfgYamlLocal ⟨"p"⟩ rfl).2 (some stubJson) ⟨⟨4, stubJson⟩⟩
     rfl rfl⟩

end TfClient
